import Mathlib

/-!
Shallow embedding of the `oshea00/openai-api` demonstration scripts
(`legacy_chat_text.py`, `completions.py`, `completions_timed_compare.py`,
`responses_text.py`) and verification of the specification's claims about
them.

Modelling conventions:
  * Python dictionaries representing chat messages become the `Message`
    inductive; JSON argument objects (after `json.loads`) become
    association lists `List (String × String)` — the embedding works with
    the deserialized arguments, as the scripts only ever access them
    after a successful `json.loads`.
  * Python exceptions become `Option` (`none` = an exception escaped).
  * `print` side effects that a claim refers to are modelled as explicit
    string lists or fields in the function's result; all other prints are
    elided.
  * Wall-clock time is modelled by threading an explicit millisecond
    clock through the (sequential) gateway calls.
-/

namespace OpenAIApi

/-! ### Shared data model -/

/-- A tool call issued by the model: id, function name, and the
deserialized JSON arguments (`json.loads(tool_call.function.arguments)`). -/
structure ToolCall where
  id : String
  name : String
  args : List (String × String)
deriving DecidableEq, Repr

/-- A chat message, mirroring the dictionaries (and the assistant
response-message object) built by the scripts. -/
inductive Message where
  | system (content : String)
  | user (content : String)
  | assistant (content : String) (toolCalls : List ToolCall)
  | tool (toolCallId : String) (name : String) (content : String)
deriving DecidableEq, Repr

/-- The assistant message object returned by the first gateway call in
`tools_call_example` (`response.choices[0].message`). -/
structure ChatResponseMessage where
  content : String
  tool_calls : List ToolCall
deriving DecidableEq, Repr

/-! ### legacy_chat_text.py — tool dispatch (`tools_call_example`) -/

/-- Lookup in a deserialized JSON object, modelling `function_args[key]`
(`none` models the `KeyError` path). -/
def lookupArg : List (String × String) → String → Option String
  | [], _ => none
  | (k, v) :: rest, key => if k = key then some v else lookupArg rest key

/-- Serialization of a flat string-valued JSON object, modelling
`json.dumps(function_response)`. -/
def jsonDumps (obj : List (String × String)) : String :=
  "\x7b" ++ String.intercalate ", "
    (obj.map fun kv => "\"" ++ kv.1 ++ "\": \"" ++ kv.2 ++ "\"") ++ "\x7d"

/-- The simulated local weather tool (`get_weather(city, country)`). -/
def get_weather (city country : String) : List (String × String) :=
  [("location", city ++ ", " ++ country),
   ("temperature", "72°F"),
   ("conditions", "Partly cloudy"),
   ("humidity", "65%")]

/-- One iteration of the dispatch loop in `tools_call_example`: prints the
`Calling <name>...` trace, and appends a `role: "tool"` message only when
the name is `get_weather` (any other name falls through the `if` with no
effect).  Result: `some (messages', printed lines)`, or `none` when the
`KeyError` on a missing `city`/`country` argument escapes. -/
def processToolCall (msgs : List Message) (tc : ToolCall) :
    Option (List Message × List String) :=
  let trace := ["Calling " ++ tc.name ++ "..."]
  if tc.name = "get_weather" then
    match lookupArg tc.args "city", lookupArg tc.args "country" with
    | some city, some country =>
        some (msgs ++ [Message.tool tc.id tc.name
                (jsonDumps (get_weather city country))], trace)
    | _, _ => none
  else
    some (msgs, trace)

/-- The `for tool_call in tool_calls:` loop of `tools_call_example`. -/
def dispatchLoop : List Message → List String → List ToolCall →
    Option (List Message × List String)
  | msgs, log, [] => some (msgs, log)
  | msgs, log, tc :: rest =>
    match processToolCall msgs tc with
    | none => none
    | some (msgs', printed) => dispatchLoop msgs' (log ++ printed) rest

/-- Phase 2 of `tools_call_example`, starting from the first-pass
conversation `msgs` and the first gateway response message `rm`:
if the response carries tool calls, append the assistant turn, run the
dispatch loop, and return the conversation that is sent to the second
gateway call together with the printed trace lines; otherwise the
conversation is left unchanged and no second call is made. -/
def tools_call_example_phase2 (msgs : List Message)
    (rm : ChatResponseMessage) : Option (List Message × List String) :=
  if rm.tool_calls.isEmpty then
    some (msgs, [])
  else
    dispatchLoop (msgs ++ [Message.assistant rm.content rm.tool_calls]) []
      rm.tool_calls

/-- The ids of the `role: "tool"` messages of a conversation, in order. -/
def toolResultIds (msgs : List Message) : List String :=
  msgs.filterMap fun m =>
    match m with
    | Message.tool i _ _ => some i
    | _ => none

/-- The tool message produced for a `get_weather` call (content as built
by `json.dumps(get_weather(city, country))`). -/
def weatherToolMessage (tc : ToolCall) : Message :=
  Message.tool tc.id tc.name
    (jsonDumps (get_weather ((lookupArg tc.args "city").getD "")
      ((lookupArg tc.args "country").getD "")))

/-! ### completions.py — document preprocessor and message builders -/

/-- The fixed character ceiling used by `create_pdf_summary_messages`
(`max_chars = 400000`). -/
def maxChars : Nat := 400000

/-- The marker appended when content is cut
(`"\n\n[Content truncated due to length...]"`). -/
def truncationMarker : String := "\n\n[Content truncated due to length...]"

/-- The text-length bound of `create_pdf_summary_messages`:
`if len(pdf_text) > max_chars: pdf_text = pdf_text[:max_chars] + marker`. -/
def truncateText (s : String) : String :=
  if s.length > maxChars then (s.take maxChars) ++ truncationMarker else s

/-- Text extraction `extract_pdf_text(pdf_path)`.  A source document is
modelled as `Option (List String)`: `none` when the file cannot be opened
or read (the `except` path, which returns `""`), `some pages` giving each
page's `page.get_text()`.  The per-page loop prepends the
`--- Page n ---` marker and the result is stripped. -/
def extract_pdf_text (doc : Option (List String)) : String :=
  match doc with
  | none => ""
  | some pages =>
    (String.join (pages.enum.map fun p =>
      "\n--- Page " ++ toString (p.1 + 1) ++ " ---\n" ++ p.2)).trim

/-- Result of `rasterize_pdf_pages`: the data-URL list it returns, and the
number printed in the `📋 Limited to first <n> pages` notice when one is
emitted (`none` when the notice is not printed). -/
structure RasterizeResult where
  images : List String
  limitedNotice : Option Nat
deriving DecidableEq, Repr

/-- Rasterization `rasterize_pdf_pages(pdf_path, dpi, max_pages)`.  Each
page of the open document is modelled by the outcome of its
`get_pixmap`/encode step: `some dataUrl` on success, `none` when the
per-page `except` path skips it.  The loop covers
`num_pages = min(doc.page_count, max_pages)` pages, appending the data
URL of each successful page in order; afterwards, if `num_pages <
doc.page_count`, the script prints `Limited to first {max_pages} pages`. -/
def rasterize_pdf_pages (pages : List (Option String)) (maxPages : Nat) :
    RasterizeResult :=
  let numPages := min pages.length maxPages
  { images := (pages.take numPages).filterMap id
  , limitedNotice := if numPages < pages.length then some maxPages else none }

/-- The system message of `create_pdf_summary_messages`. -/
def pdfSummarySystem : String :=
  "You are a helpful assistant that analyzes document content and provides clear, concise summaries."

/-- The user prompt of `create_pdf_summary_messages` (the f-string with
the path and the extracted, bounded text spliced in). -/
def pdfUserPrompt (pdfPath pdfText : String) : String :=
  "Please analyze the following PDF document content and provide a brief summary. \nFocus on the main topics, key concepts, and overall purpose of the document.\n\nDocument: "
    ++ pdfPath ++ "\n\nContent:\n" ++ pdfText ++
    "\n\nPlease provide:\n1. A brief overview of the document's purpose\n2. Main topics and sections covered\n3. Key concepts or important points\n4. Target audience (if apparent)"

/-- Message builder `create_pdf_summary_messages(pdf_path)`: extract the
text, return `[]` when nothing was extracted (`if not pdf_text`),
otherwise bound the text and build the two-message conversation. -/
def create_pdf_summary_messages (pdfPath : String)
    (doc : Option (List String)) : List Message :=
  let pdfText := extract_pdf_text doc
  if pdfText = "" then []
  else
    [Message.system pdfSummarySystem,
     Message.user (pdfUserPrompt pdfPath (truncateText pdfText))]

/-- The caller's guard in `main` (`if pdf_messages:`): whether the
downstream gateway call `get_completion_4_multimodal` is made for this
document. -/
def pdfAnalysisCallsGateway (pdfPath : String)
    (doc : Option (List String)) : Bool :=
  !(create_pdf_summary_messages pdfPath doc).isEmpty

/-! ### responses_text.py — reasoning-summary accessor -/

/-- One fragment of a reasoning summary (`s.text`). -/
structure SummaryFragment where
  text : String
deriving DecidableEq, Repr

/-- One item of `response.output`: its `type` tag and its `summary`
fragment list. -/
structure OutputItem where
  type : String
  summary : List SummaryFragment
deriving DecidableEq, Repr

/-- A responses-API result, as far as `extract_reasoning_summary`
inspects it. -/
structure ResponsesResult where
  output : List OutputItem
deriving DecidableEq, Repr

/-- The accessor `extract_reasoning_summary(response)`:
`" ".join(s.text for r in response.output if r.type == "reasoning" for s in r.summary)`. -/
def extract_reasoning_summary (r : ResponsesResult) : String :=
  String.intercalate " "
    (((r.output.filter fun o => o.type = "reasoning").flatMap
        fun o => o.summary).map fun s => s.text)

/-- Specification-side reading of the accessor's contract: the fragments
collected in response order. -/
def reasoningFragments (r : ResponsesResult) : List String :=
  ((r.output.filter fun o => o.type = "reasoning").flatMap
      fun o => o.summary).map fun s => s.text

/-- Specification-side reading of "joined by a single space, empty when
no fragments exist, no trailing space": a direct recursive join. -/
def spaceJoin : List String → String
  | [] => ""
  | [x] => x
  | x :: y :: xs => x ++ " " ++ spaceJoin (y :: xs)

/-! ### logging HTTP client — header masking (legacy_chat_text.py and
responses_text.py share the same `LoggingHTTPClient.send` loop) -/

/-- Python's `str.lower()` on a header name (ASCII case folding,
character by character). -/
def pyLower (s : String) : String :=
  String.mk (s.data.map Char.toLower)

/-- The line printed for one request header: masked when the name is
`authorization` case-insensitively, verbatim otherwise. -/
def logHeaderLine (name value : String) : String :=
  if pyLower name = "authorization" then
    "  " ++ name ++ ": Bearer ***masked***"
  else
    "  " ++ name ++ ": " ++ value

/-- The header lines printed by `LoggingHTTPClient.send` for a request's
header list, in order. -/
def logHeaders (headers : List (String × String)) : List String :=
  headers.map fun h => logHeaderLine h.1 h.2

/-! ### completions_timed_compare.py — sequential micro-benchmark -/

/-- The fixed prompt `test_messages` used by every benchmark call. -/
def test_messages : List Message :=
  [Message.system "You are a helpful assistant.",
   Message.user "say hello and comment on the weather."]

/-- One gateway call as observed by the benchmark: the wall-clock window
it occupied, the conversation sent, and the model's response. -/
structure TimedCall where
  startMs : Nat
  stopMs : Nat
  messages : List Message
  response : String
deriving DecidableEq, Repr

/-- The `for _ in range(n): response = get_completion(...)` loop.  The
remote model is an oracle mapping the call index to the response text and
the call's duration in milliseconds; because the loop is synchronous,
each call starts at the clock value at which the previous one stopped.
Returns the call records in order and the clock after the loop. -/
def runCalls (msgs : List Message) (oracle : Nat → String × Nat) :
    Nat → Nat → Nat → List TimedCall × Nat
  | 0, _, t => ([], t)
  | Nat.succ k, i, t =>
    let r := oracle i
    let rest := runCalls msgs oracle k (i + 1) (t + r.2)
    (⟨t, t + r.2, msgs, r.1⟩ :: rest.1, rest.2)

/-- The value returned by `timed_comparison_test()`, together with the
full call trace needed to state the claim. -/
structure TimedTestTrace where
  calls4 : List TimedCall
  calls5 : List TimedCall
  response4 : String
  total4Ms : Nat
  response5 : String
  total5Ms : Nat
deriving Repr

/-- `timed_comparison_test()`: four timed calls of `get_completion_4o`,
then four timed calls of `get_completion_5_oneshot`, each loop's total
being the wall-clock difference around it; the returned responses are the
ones left bound by the last loop iterations. -/
def timed_comparison_test (o4 o5 : Nat → String × Nat) (t0 : Nat) :
    TimedTestTrace :=
  let r4 := runCalls test_messages o4 4 0 t0
  let r5 := runCalls test_messages o5 4 0 r4.2
  { calls4 := r4.1
  , calls5 := r5.1
  , response4 := ((r4.1.getLast?).map TimedCall.response).getD ""
  , total4Ms := r4.2 - t0
  , response5 := ((r5.1.getLast?).map TimedCall.response).getD ""
  , total5Ms := r5.2 - r4.2 }

/-- The speed report printed at the end of `main` in
`completions_timed_compare.py`.  `gpt5Faster r` models the
`GPT-5-mini is {r}x faster` line and `gpt4Faster r` the
`GPT-4.1-mini is {r}x faster` line. -/
inductive SpeedReport where
  | gpt5Faster (ratio : ℚ)
  | gpt4Faster (ratio : ℚ)
deriving DecidableEq, Repr

/-- The ratio block of `main`:
`if total_4o_ms > 0 and total_5_ms > 0: speed_ratio = total_4o_ms / total_5_ms; ...`.
`none` models the branch where nothing is printed. -/
def speedRatioReport (total4Ms total5Ms : Nat) : Option SpeedReport :=
  if 0 < total4Ms ∧ 0 < total5Ms then
    let speedRatio : ℚ := (total4Ms : ℚ) / (total5Ms : ℚ)
    if 1 < speedRatio then some (SpeedReport.gpt5Faster speedRatio)
    else some (SpeedReport.gpt4Faster (1 / speedRatio))
  else none

/-! ### main sequences — per-demonstration try/except isolation
(`legacy_chat_text.main` and `completions.main` follow the same shape) -/

/-- Outcome of running one top-level demonstration body: the lines it
printed, or the exception message it raised. -/
inductive DemoOutcome where
  | ok (output : List String)
  | fails (errMsg : String)
deriving DecidableEq, Repr

/-- The error line printed by a demonstration's `except` clause
(`print(f"❌ Error in <name>: <e>")`). -/
def demoErrorLine (name errMsg : String) : String :=
  "❌ Error in " ++ name ++ ": " ++ errMsg

/-- One `try/except` block of a main sequence: the demonstration's own
output when it succeeds, or the caught-and-reported error line. -/
def runDemo (name : String) (d : DemoOutcome) : List String :=
  match d with
  | DemoOutcome.ok out => out
  | DemoOutcome.fails e => [demoErrorLine name e]

/-- The straight-line sequence of guarded demonstrations in `main`: each
block runs unconditionally after the previous one, whatever the previous
outcomes were. -/
def runDemos : List (String × DemoOutcome) → List (List String)
  | [] => []
  | (n, d) :: rest => runDemo n d :: runDemos rest

/-- The five guarded demonstrations of `legacy_chat_text.main`, with each
body's outcome abstracted as a `DemoOutcome`. -/
def legacyMainDemos (o1 o2 o3 o4 o5 : DemoOutcome) :
    List (String × DemoOutcome) :=
  [("basic_text_chat", o1),
   ("structured_response_model", o2),
   ("structured_response_json_mode", o3),
   ("structure_response_text", o4),
   ("tools_call_example", o5)]

/-- The user-facing output blocks of `legacy_chat_text.main`, one per
demonstration, in source order. -/
def legacy_main (o1 o2 o3 o4 o5 : DemoOutcome) : List (List String) :=
  runDemos (legacyMainDemos o1 o2 o3 o4 o5)

/-! ### Helper lemmas -/

/-- Tail part of a separator join: the separator before every element. -/
def tailJoin (s : String) : List String → String
  | [] => ""
  | a :: as => s ++ a ++ tailJoin s as

theorem intercalate_go_append (s : String) :
    ∀ (l : List String) (a b : String),
      String.intercalate.go (a ++ b) s l = a ++ String.intercalate.go b s l := by
  intro l
  induction l with
  | nil => intro a b; rfl
  | cons c cs ih =>
    intro a b
    show String.intercalate.go (a ++ b ++ s ++ c) s cs =
      a ++ String.intercalate.go (b ++ s ++ c) s cs
    rw [String.append_assoc, String.append_assoc, ← String.append_assoc b s c,
      ih a (b ++ s ++ c)]

theorem intercalate_eq_spaceJoin :
    ∀ l : List String, String.intercalate " " l = spaceJoin l := by
  intro l
  induction l with
  | nil => rfl
  | cons x xs ih =>
    cases xs with
    | nil => rfl
    | cons y ys =>
      show String.intercalate.go x " " (y :: ys) = x ++ " " ++ spaceJoin (y :: ys)
      rw [← ih]
      show String.intercalate.go (x ++ " " ++ y) " " ys =
        x ++ " " ++ String.intercalate " " (y :: ys)
      rw [intercalate_go_append " " ys (x ++ " ") y]
      rfl

/-! ### Claim theorems -/

/-- Claim C2: applying the Message Builder's text-length bound
(`truncateText`, the `max_chars` cut of `create_pdf_summary_messages`)
twice to a text that is already bounded produces no further change. -/
theorem truncateText_idempotent_on_bounded (s : String)
    (h : s.length ≤ maxChars) :
    truncateText (truncateText s) = truncateText s := by
  have h1 : truncateText s = s := by
    unfold truncateText
    rw [if_neg (by omega)]
  rw [h1, h1]

/-- Witness for C2 at the concrete already-bounded text `"hello"`. -/
theorem truncateText_idempotent_on_bounded_witness :
    ("hello" : String).length ≤ maxChars ∧
      truncateText (truncateText "hello") = truncateText "hello" :=
  ⟨by decide, truncateText_idempotent_on_bounded "hello" (by decide)⟩

/-- Claim C6: whenever the source document yields no extractable text
(unreadable file, decode failure, or empty extraction — all of which make
`extract_pdf_text` return `""`), `create_pdf_summary_messages` returns an
empty conversation, and the caller's guard in `main` skips the downstream
gateway call. -/
theorem empty_source_skips_gateway (pdfPath : String)
    (doc : Option (List String)) (h : extract_pdf_text doc = "") :
    create_pdf_summary_messages pdfPath doc = [] ∧
      pdfAnalysisCallsGateway pdfPath doc = false := by
  have hmsgs : create_pdf_summary_messages pdfPath doc = [] := by
    unfold create_pdf_summary_messages
    rw [h]
    rfl
  exact ⟨hmsgs, by rw [pdfAnalysisCallsGateway, hmsgs]; rfl⟩

/-- Witness for C6 at an unreadable document (`none`). -/
theorem empty_source_skips_gateway_witness :
    extract_pdf_text none = "" ∧
      create_pdf_summary_messages "data/PyTorchCheatsheet.pdf" none = [] ∧
      pdfAnalysisCallsGateway "data/PyTorchCheatsheet.pdf" none = false :=
  ⟨rfl,
   (empty_source_skips_gateway "data/PyTorchCheatsheet.pdf" none rfl).1,
   (empty_source_skips_gateway "data/PyTorchCheatsheet.pdf" none rfl).2⟩

/-- Claim C10: the speed-ratio report is produced exactly when both
measured millisecond totals are strictly positive, and whenever it is
produced both divisors that `main` uses (`total_5_ms` in
`total_4o_ms / total_5_ms`, and the resulting ratio in `1/speed_ratio`)
are nonzero, so the computation never divides by zero. -/
theorem speedRatioReport_no_div_by_zero (t4 t5 : Nat) :
    (speedRatioReport t4 t5 ≠ none ↔ 0 < t4 ∧ 0 < t5) ∧
      ∀ rep, speedRatioReport t4 t5 = some rep →
        (t5 : ℚ) ≠ 0 ∧ (t4 : ℚ) / (t5 : ℚ) ≠ 0 := by
  by_cases h : 0 < t4 ∧ 0 < t5
  · refine ⟨⟨fun _ => h, fun _ => ?_⟩, fun rep _ => ?_⟩
    · unfold speedRatioReport
      rw [if_pos h]
      dsimp only
      split <;> simp
    · have h4 : (t4 : ℚ) ≠ 0 := Nat.cast_ne_zero.mpr h.1.ne'
      have h5 : (t5 : ℚ) ≠ 0 := Nat.cast_ne_zero.mpr h.2.ne'
      exact ⟨h5, div_ne_zero h4 h5⟩
  · refine ⟨?_, fun rep hrep => ?_⟩
    · unfold speedRatioReport
      rw [if_neg h]
      simp [h]
    · unfold speedRatioReport at hrep
      rw [if_neg h] at hrep
      cases hrep

/-- Witness for C10 at the measured totals 100 ms and 50 ms. -/
theorem speedRatioReport_no_div_by_zero_witness :
    speedRatioReport 100 50 = some (SpeedReport.gpt5Faster 2) ∧
      (50 : ℚ) ≠ 0 ∧ (100 : ℚ) / (50 : ℚ) ≠ 0 := by
  have heq : speedRatioReport 100 50 = some (SpeedReport.gpt5Faster 2) := by
    unfold speedRatioReport
    norm_num
  exact ⟨heq,
    (speedRatioReport_no_div_by_zero 100 50).2 (SpeedReport.gpt5Faster 2) heq⟩

/-- Claim C5: `extract_reasoning_summary` returns the reasoning-summary
fragments in response order joined by a single space (no trailing space),
returns `""` when no fragments exist, and on a result with the two
fragments `"Step 1..."` and `"Step 2..."` returns exactly
`"Step 1... Step 2..."`. -/
theorem extract_reasoning_summary_spec :
    (∀ r : ResponsesResult,
        extract_reasoning_summary r = spaceJoin (reasoningFragments r)) ∧
      extract_reasoning_summary
          ⟨[⟨"reasoning", [⟨"Step 1..."⟩, ⟨"Step 2..."⟩]⟩]⟩ =
        "Step 1... Step 2..." ∧
      ∀ r : ResponsesResult, reasoningFragments r = [] →
        extract_reasoning_summary r = "" := by
  refine ⟨fun r => intercalate_eq_spaceJoin _, by rfl, fun r h => ?_⟩
  unfold extract_reasoning_summary
  unfold reasoningFragments at h
  rw [h]
  rfl

/-- Witness for C5's no-fragments clause at a result whose only output
item is not of type `reasoning`. -/
theorem extract_reasoning_summary_spec_witness :
    extract_reasoning_summary ⟨[⟨"message", [⟨"hidden"⟩]⟩]⟩ = "" ∧
      spaceJoin (reasoningFragments
          ⟨[⟨"reasoning", [⟨"Step 1..."⟩, ⟨"Step 2..."⟩]⟩]⟩) =
        "Step 1... Step 2..." := by
  constructor
  · exact extract_reasoning_summary_spec.2.2 _ (by decide)
  · rw [← extract_reasoning_summary_spec.1]
    exact extract_reasoning_summary_spec.2.1

/-- Claim C9: every request header whose name equals `authorization`
case-insensitively is logged as the fixed masked line, and replacing the
credential value by any other value leaves the entire logged header
output unchanged — so the raw credential never influences (and never
appears in) the header log. -/
theorem authorization_header_masked (hs : List (String × String)) (i : Nat)
    (n v : String) (hget : hs[i]? = some (n, v))
    (hauth : pyLower n = "authorization") :
    (logHeaders hs)[i]? = some ("  " ++ n ++ ": Bearer ***masked***") ∧
      ∀ v', logHeaders (hs.set i (n, v')) = logHeaders hs := by
  have hline : ∀ v'', logHeaderLine n v'' =
      "  " ++ n ++ ": Bearer ***masked***" := by
    intro v''
    unfold logHeaderLine
    rw [if_pos hauth]
  have hlen : i < hs.length := by
    by_contra hge
    rw [List.getElem?_eq_none (Nat.le_of_not_lt hge)] at hget
    cases hget
  constructor
  · show ((hs.map fun h => logHeaderLine h.1 h.2))[i]? = _
    rw [List.getElem?_map, hget]
    simp [hline v]
  · intro v'
    show ((hs.set i (n, v')).map fun h => logHeaderLine h.1 h.2) =
      hs.map fun h => logHeaderLine h.1 h.2
    rw [List.map_set]
    apply List.ext_getElem?
    intro j
    by_cases hij : i = j
    · subst hij
      rw [List.getElem?_set, if_pos rfl, if_pos (by simpa using hlen),
        List.getElem?_map, hget]
      simp [hline]
    · rw [List.getElem?_set_ne hij]

/-- Witness for C9 at a concrete request with a bearer token. -/
theorem authorization_header_masked_witness :
    (logHeaders [("Authorization", "Bearer sk-secret-123"),
        ("content-type", "application/json")])[0]? =
      some "  Authorization: Bearer ***masked***" ∧
      logHeaders ([("Authorization", "Bearer sk-secret-123"),
          ("content-type", "application/json")].set 0
        ("Authorization", "Bearer another-credential")) =
        logHeaders [("Authorization", "Bearer sk-secret-123"),
          ("content-type", "application/json")] := by
  have h := authorization_header_masked
    [("Authorization", "Bearer sk-secret-123"),
     ("content-type", "application/json")] 0
    "Authorization" "Bearer sk-secret-123" (by decide) (by decide)
  exact ⟨h.1, h.2 "Bearer another-credential"⟩

/-- Per-call precondition under which the dispatch loop of
`tools_call_example` handles a tool call: the call names the one
registered tool `get_weather` and carries both required arguments. -/
abbrev WeatherCall (tc : ToolCall) : Prop :=
  tc.name = "get_weather" ∧ (lookupArg tc.args "city").isSome ∧
    (lookupArg tc.args "country").isSome

theorem dispatchLoop_all_weather :
    ∀ (tcs : List ToolCall), (∀ tc ∈ tcs, WeatherCall tc) →
      ∀ msgs log, dispatchLoop msgs log tcs =
        some (msgs ++ tcs.map weatherToolMessage,
          log ++ tcs.map fun tc => "Calling " ++ tc.name ++ "...") := by
  intro tcs
  induction tcs with
  | nil => intro _ msgs log; simp [dispatchLoop]
  | cons tc rest ih =>
    intro hall msgs log
    obtain ⟨hname, hc, hk⟩ := hall tc (List.mem_cons_self tc rest)
    obtain ⟨city, hcity⟩ := Option.isSome_iff_exists.mp hc
    obtain ⟨country, hcountry⟩ := Option.isSome_iff_exists.mp hk
    have hproc : processToolCall msgs tc =
        some (msgs ++ [weatherToolMessage tc],
          ["Calling " ++ tc.name ++ "..."]) := by
      unfold processToolCall weatherToolMessage
      rw [if_pos hname, hcity, hcountry]
      rfl
    simp only [dispatchLoop]
    rw [hproc]
    simp only []
    rw [ih (fun t ht => hall t (List.mem_cons_of_mem _ ht))]
    simp

/-- Claim C1 (amended): when the first-pass result carries `N ≥ 1` tool
calls, each naming the registered tool `get_weather` with its `city` and
`country` arguments present, the dispatcher produces exactly `N` tool
results appended in call order, and the conversation sent to the second
gateway call has length (first-pass length) + 1 (assistant turn) + `N`. -/
theorem tool_roundtrip_counts (msgs : List Message)
    (rm : ChatResponseMessage) (hne : rm.tool_calls ≠ [])
    (hall : ∀ tc ∈ rm.tool_calls, WeatherCall tc) :
    tools_call_example_phase2 msgs rm =
      some (msgs ++ [Message.assistant rm.content rm.tool_calls] ++
          rm.tool_calls.map weatherToolMessage,
        rm.tool_calls.map fun tc => "Calling " ++ tc.name ++ "...") ∧
      (msgs ++ [Message.assistant rm.content rm.tool_calls] ++
          rm.tool_calls.map weatherToolMessage).length =
        msgs.length + 1 + rm.tool_calls.length ∧
      toolResultIds (msgs ++ [Message.assistant rm.content rm.tool_calls] ++
          rm.tool_calls.map weatherToolMessage) =
        toolResultIds msgs ++ rm.tool_calls.map ToolCall.id := by
  refine ⟨?_, ?_, ?_⟩
  · unfold tools_call_example_phase2
    rw [if_neg (by simp [List.isEmpty_iff, hne])]
    rw [dispatchLoop_all_weather rm.tool_calls hall _ []]
    simp
  · simp
    omega
  · unfold toolResultIds
    simp only [List.filterMap_append, List.filterMap_map]
    have h1 : ([Message.assistant rm.content rm.tool_calls].filterMap
        fun m => match m with
          | Message.tool i _ _ => some i
          | _ => none) = [] := rfl
    have h2 : rm.tool_calls.filterMap ((fun m => match m with
        | Message.tool i _ _ => some i
        | _ => none) ∘ weatherToolMessage) =
        rm.tool_calls.map ToolCall.id := by
      induction rm.tool_calls with
      | nil => rfl
      | cons tc rest ih =>
        simp only [List.filterMap_cons, List.map_cons, Function.comp,
          weatherToolMessage]
        rw [← ih]
    rw [h1, h2]
    simp

/-- The first-pass conversation of `tools_call_example`. -/
def c1msgs : List Message :=
  [Message.user "What's the weather like in San Francisco, USA?"]

/-- A tool call whose name has no registered local callable. -/
def unknownToolCall : ToolCall := ⟨"call_1", "get_time", []⟩

/-- A well-formed call to the registered `get_weather` tool. -/
def weatherCallSF : ToolCall :=
  ⟨"call_1", "get_weather", [("city", "San Francisco"), ("country", "USA")]⟩

/-- Counterexample to C1 as stated: a first-pass result carrying one
tool call (`N = 1`) whose name is not `get_weather` yields zero tool
results, and the second-pass conversation has length 2, not
1 + 1 + 1 = 3 — the unmatched call is dropped by the dispatch loop. -/
theorem tool_roundtrip_counts_counterexample :
    tools_call_example_phase2 c1msgs ⟨"", [unknownToolCall]⟩ =
      some ([Message.user "What's the weather like in San Francisco, USA?",
          Message.assistant "" [unknownToolCall]],
        ["Calling get_time..."]) ∧
      ([Message.user "What's the weather like in San Francisco, USA?",
          Message.assistant "" [unknownToolCall]] : List Message).length = 2 ∧
      c1msgs.length + 1 +
        (ChatResponseMessage.mk "" [unknownToolCall]).tool_calls.length = 3 ∧
      toolResultIds [Message.user
          "What's the weather like in San Francisco, USA?",
        Message.assistant "" [unknownToolCall]] = [] := by
  decide

/-- Witness for the amended C1 at a single well-formed `get_weather`
call. -/
theorem tool_roundtrip_counts_witness :
    tools_call_example_phase2 c1msgs ⟨"", [weatherCallSF]⟩ =
      some (c1msgs ++ [Message.assistant "" [weatherCallSF]] ++
          [weatherCallSF].map weatherToolMessage,
        [weatherCallSF].map fun tc => "Calling " ++ tc.name ++ "...") ∧
      toolResultIds (c1msgs ++ [Message.assistant "" [weatherCallSF]] ++
        [weatherCallSF].map weatherToolMessage) =
        toolResultIds c1msgs ++ [weatherCallSF].map ToolCall.id := by
  have h := tool_roundtrip_counts c1msgs ⟨"", [weatherCallSF]⟩
    (by decide) (by decide)
  exact ⟨h.1, h.2.2⟩

/-- Claim C4 (amended): a tool call whose name has no registered local
callable is silently skipped by the dispatch loop — no exception is
raised, no tool result is appended, and the only output is the
`Calling <name>...` trace line, with no error report. -/
theorem unknown_tool_silently_skipped (msgs : List Message) (tc : ToolCall)
    (h : tc.name ≠ "get_weather") :
    processToolCall msgs tc = some (msgs, ["Calling " ++ tc.name ++ "..."]) := by
  unfold processToolCall
  rw [if_neg h]

/-- Whether a printed line is an error report in the scripts' convention
(every error print begins with the `❌` mark). -/
def isErrorReport (line : String) : Bool :=
  match line.data with
  | c :: _ => c = '❌'
  | [] => false

/-- Counterexample to C4 as stated: dispatching the unresolvable call
`get_time` completes normally (no exception), appends no tool result,
and prints no error report — the unresolved name is silently dropped
rather than surfaced as an `UnknownTool` error. -/
theorem unknown_tool_silently_skipped_counterexample :
    processToolCall [] unknownToolCall =
      some ([], ["Calling get_time..."]) ∧
      (["Calling get_time..."].filter isErrorReport) = [] ∧
      toolResultIds [] = [] := by
  decide

/-- Witness for the amended C4 at the concrete unresolvable call. -/
theorem unknown_tool_silently_skipped_witness :
    unknownToolCall.name ≠ "get_weather" ∧
      processToolCall c1msgs unknownToolCall =
        some (c1msgs, ["Calling " ++ unknownToolCall.name ++ "..."]) :=
  ⟨by decide, unknown_tool_silently_skipped c1msgs unknownToolCall (by decide)⟩

theorem filterMap_id_length_of_all_isSome {α : Type} :
    ∀ (l : List (Option α)), (∀ p ∈ l, p.isSome) →
      (l.filterMap id).length = l.length := by
  intro l
  induction l with
  | nil => intro _; rfl
  | cons p rest ih =>
    intro h
    obtain ⟨a, ha⟩ :=
      Option.isSome_iff_exists.mp (h p (List.mem_cons_self _ _))
    subst ha
    simp only [List.filterMap_cons, id, List.length_cons]
    rw [ih (fun q hq => h q (List.mem_cons_of_mem _ hq))]

/-- Claim C3 (amended): for a document with more pages than the ceiling
whose first `maxPages` pages rasterize successfully, `rasterize_pdf_pages`
returns exactly `maxPages` images and emits the limited-pages notice — but
the number it reports is the ceiling itself (`max_pages`), not the
skipped-page count. -/
theorem rasterize_page_ceiling (pages : List (Option String))
    (maxPages : Nat) (hover : maxPages < pages.length)
    (hok : ∀ p ∈ pages.take maxPages, p.isSome) :
    (rasterize_pdf_pages pages maxPages).images.length = maxPages ∧
      (rasterize_pdf_pages pages maxPages).limitedNotice = some maxPages := by
  have hmin : min pages.length maxPages = maxPages :=
    Nat.min_eq_right (Nat.le_of_lt hover)
  constructor
  · show ((pages.take (min pages.length maxPages)).filterMap id).length =
      maxPages
    rw [hmin, filterMap_id_length_of_all_isSome _ hok, List.length_take]
    omega
  · show (if min pages.length maxPages < pages.length then some maxPages
      else none) = some maxPages
    rw [hmin, if_pos hover]

/-- Counterexample to C3 as stated: a three-page document with ceiling 2
returns 2 images, but the notice reports the ceiling (2), not the
skipped-page count (3 − 2 = 1). -/
theorem rasterize_page_ceiling_counterexample :
    (rasterize_pdf_pages [some "u1", some "u2", some "u3"] 2).images.length
        = 2 ∧
      (rasterize_pdf_pages [some "u1", some "u2", some "u3"] 2).limitedNotice
        = some 2 ∧
      (some 2 : Option Nat) ≠
        some (([some "u1", some "u2", some "u3"] :
          List (Option String)).length - 2) := by
  decide

/-- Witness for the amended C3 at the three-page document with ceiling
2. -/
theorem rasterize_page_ceiling_witness :
    (rasterize_pdf_pages [some "a", some "b", some "c", some "d"] 3).images.length = 3 ∧
      (rasterize_pdf_pages [some "a", some "b", some "c", some "d"] 3).limitedNotice = some 3 :=
  rasterize_page_ceiling [some "a", some "b", some "c", some "d"] 3
    (by decide) (by decide)

theorem runDemos_eq_map (demos : List (String × DemoOutcome)) :
    runDemos demos = demos.map fun p => runDemo p.1 p.2 := by
  induction demos with
  | nil => rfl
  | cons d rest ih => simp [runDemos, ih]

/-- Claim C7: every demonstration of a main sequence produces exactly one
output block in order, whatever the other demonstrations' outcomes are; a
failing demonstration's error is caught and reported as its block, and
every demonstration after it still produces its own block — no failure
terminates the sequence. -/
theorem demo_failures_isolated (demos : List (String × DemoOutcome)) :
    (runDemos demos).length = demos.length ∧
      (∀ (i : Nat) (n : String) (d : DemoOutcome), demos[i]? = some (n, d) →
        (runDemos demos)[i]? = some (runDemo n d)) ∧
      ∀ (i : Nat) (n e : String),
        demos[i]? = some (n, DemoOutcome.fails e) →
        (runDemos demos)[i]? = some [demoErrorLine n e] := by
  refine ⟨?_, ?_, ?_⟩
  · rw [runDemos_eq_map]
    simp
  · intro i n d h
    rw [runDemos_eq_map, List.getElem?_map, h]
    rfl
  · intro i n e h
    rw [runDemos_eq_map, List.getElem?_map, h]
    rfl

/-- Witness for C7 on `legacy_main` with the second demonstration
failing: all five blocks are produced, the failure is reported as the
second block, and the fifth demonstration still ran. -/
theorem demo_failures_isolated_witness :
    (legacy_main (DemoOutcome.ok ["story"]) (DemoOutcome.fails "boom")
        (DemoOutcome.ok ["json"]) (DemoOutcome.ok ["math"])
        (DemoOutcome.ok ["weather"])).length = 5 ∧
      (legacy_main (DemoOutcome.ok ["story"]) (DemoOutcome.fails "boom")
        (DemoOutcome.ok ["json"]) (DemoOutcome.ok ["math"])
        (DemoOutcome.ok ["weather"]))[1]? =
        some [demoErrorLine "structured_response_model" "boom"] ∧
      (legacy_main (DemoOutcome.ok ["story"]) (DemoOutcome.fails "boom")
        (DemoOutcome.ok ["json"]) (DemoOutcome.ok ["math"])
        (DemoOutcome.ok ["weather"]))[4]? = some ["weather"] := by
  have h := demo_failures_isolated (legacyMainDemos (DemoOutcome.ok ["story"])
    (DemoOutcome.fails "boom") (DemoOutcome.ok ["json"])
    (DemoOutcome.ok ["math"]) (DemoOutcome.ok ["weather"]))
  exact ⟨h.1, h.2.2 1 "structured_response_model" "boom" (by decide),
    h.2.1 4 "tools_call_example" (DemoOutcome.ok ["weather"]) (by decide)⟩

theorem runCalls_four (msgs : List Message) (o : Nat → String × Nat)
    (i t : Nat) :
    runCalls msgs o 4 i t =
      ([⟨t, t + (o i).2, msgs, (o i).1⟩,
        ⟨t + (o i).2, t + (o i).2 + (o (i+1)).2, msgs, (o (i+1)).1⟩,
        ⟨t + (o i).2 + (o (i+1)).2,
          t + (o i).2 + (o (i+1)).2 + (o (i+2)).2, msgs, (o (i+2)).1⟩,
        ⟨t + (o i).2 + (o (i+1)).2 + (o (i+2)).2,
          t + (o i).2 + (o (i+1)).2 + (o (i+2)).2 + (o (i+3)).2, msgs,
          (o (i+3)).1⟩],
       t + (o i).2 + (o (i+1)).2 + (o (i+2)).2 + (o (i+3)).2) := rfl

/-- Claim C8: the timed comparison performs exactly four gateway calls
per model, every call with the same fixed prompt `test_messages`; the
calls run strictly back-to-back (each call starts at the instant the
previous one stopped, across both loops), each model's reported total is
the sum of the wall-clock durations of its four calls, and the returned
response for each model is that of its last (fourth) call. -/
theorem timed_comparison_spec (o4 o5 : Nat → String × Nat) (t0 : Nat) :
    (timed_comparison_test o4 o5 t0).calls4.length = 4 ∧
      (timed_comparison_test o4 o5 t0).calls5.length = 4 ∧
      (∀ c ∈ (timed_comparison_test o4 o5 t0).calls4 ++
          (timed_comparison_test o4 o5 t0).calls5,
        c.messages = test_messages) ∧
      List.Chain' (fun a b => b.startMs = a.stopMs)
        ((timed_comparison_test o4 o5 t0).calls4 ++
          (timed_comparison_test o4 o5 t0).calls5) ∧
      (timed_comparison_test o4 o5 t0).total4Ms =
        (o4 0).2 + (o4 1).2 + (o4 2).2 + (o4 3).2 ∧
      (timed_comparison_test o4 o5 t0).total5Ms =
        (o5 0).2 + (o5 1).2 + (o5 2).2 + (o5 3).2 ∧
      (timed_comparison_test o4 o5 t0).response4 = (o4 3).1 ∧
      (timed_comparison_test o4 o5 t0).response5 = (o5 3).1 := by
  simp only [timed_comparison_test, runCalls_four, Nat.zero_add]
  refine ⟨rfl, rfl, ?_, ?_, by omega, by omega, rfl, rfl⟩
  · intro c hc
    fin_cases hc <;> rfl
  · simp [List.chain'_cons]

/-- Witness for C8 at constant oracles (every model-4 call takes 10 ms,
every model-5 call 30 ms), starting the clock at 0. -/
theorem timed_comparison_spec_witness :
    (timed_comparison_test (fun _ => ("hello4", 10))
        (fun _ => ("hello5", 30)) 0).calls4.length = 4 ∧
      (timed_comparison_test (fun _ => ("hello4", 10))
        (fun _ => ("hello5", 30)) 0).total4Ms = 40 ∧
      (timed_comparison_test (fun _ => ("hello4", 10))
        (fun _ => ("hello5", 30)) 0).total5Ms = 120 ∧
      (timed_comparison_test (fun _ => ("hello4", 10))
        (fun _ => ("hello5", 30)) 0).response4 = "hello4" ∧
      (timed_comparison_test (fun _ => ("hello4", 10))
        (fun _ => ("hello5", 30)) 0).response5 = "hello5" ∧
      (⟨0, 10, test_messages, "hello4"⟩ : TimedCall).messages =
        test_messages := by
  have h := timed_comparison_spec (fun _ => ("hello4", 10))
    (fun _ => ("hello5", 30)) 0
  exact ⟨h.1, h.2.2.2.2.1, h.2.2.2.2.2.1, h.2.2.2.2.2.2.1,
    h.2.2.2.2.2.2.2, h.2.2.1 ⟨0, 10, test_messages, "hello4"⟩ (by decide)⟩

end OpenAIApi
